import Mathlib

/-!
Shallow embedding of the cursive controller (src/src/lib.rs) and the parts of
its view layer that the controller drives.  The controller code (`Cursive`) is
translated directly from `src/src/lib.rs`; the view-layer pieces (`View`,
`StackView`, `Selector`) live in repository modules outside `src/` and are
modelled from the specification, as marked on each such definition.

Callbacks are defunctionalised: the whole development is parametric in a type
`C` of callback codes, and the functions that invoke callbacks (`dispatch`,
`run`, `Cursive.on_key_event`) take an interpretation `ap : C → Cursive C →
Cursive C` as an explicit argument.  This sidesteps the negative occurrence of
the controller type inside its own callback table while keeping the dispatch
structure of the code exact.  A Rust `panic!` (the `unwrap` in `screen_mut`,
the bounds check in `set_screen`) is modelled as `Option.none`.
-/

/-- Modelled from the spec: the outcome of offering a key event to a view —
`Ignored`, or `Consumed` with an optional follow-up callback (spec section 3,
mirrored by the match arms in `Cursive::run`). `C` is the callback-code type. -/
inductive EventResult (C : Type) where
  | Ignored : EventResult C
  | Consumed : Option C → EventResult C
deriving DecidableEq

/-- Modelled from the spec: a selector is either an identifier query or a
structural-position query (spec section 3 and 4.3). -/
inductive Selector where
  | byName : String → Selector
  | byPosition : Nat → Selector
deriving DecidableEq

/-- Modelled from the spec: the result of a structural `find`, before the typed
narrowing step.  `tag` stands for the concrete runtime type of the located view
(used by the downcast), `data` for its identity. -/
structure AnyView where
  tag : Nat
  data : Nat
deriving DecidableEq

/-- Modelled from the spec: the polymorphic widget contract, restricted to the
capabilities the claims exercise — `on_key_event` (called `handleEvent` in the
spec) and `find` (recursive descent abstracted as a function). -/
structure View (C : Type) where
  on_key_event : Int → EventResult C
  find : Selector → Option AnyView

/-- Modelled from the spec: an ordered stack of layers, bottom first; the top
layer is the last element (most recently added). -/
structure StackView (C : Type) where
  layers : List (View C)

/-- Modelled from the spec: a fresh StackView holds no layers. -/
def StackView.new {C : Type} : StackView C :=
  { layers := [] }

/-- Modelled from the spec: `add_layer` pushes a new owned layer on top. -/
def StackView.add_layer {C : Type} (s : StackView C) (v : View C) : StackView C :=
  { layers := s.layers ++ [v] }

/-- Modelled from the spec (section 4.2): a key event is delivered only to the
top layer; if the top layer returns `Ignored` the StackView itself returns
`Ignored` without trying lower layers.  An empty stack has no layer to try. -/
def StackView.on_key_event {C : Type} (s : StackView C) (ch : Int) : EventResult C :=
  match s.layers.getLast? with
  | none => EventResult.Ignored
  | some top => top.on_key_event ch

/-- Modelled from the spec (section 4.2): `find` delegates to each layer in
stack order and returns the first match. -/
def StackView.find {C : Type} (s : StackView C) (sel : Selector) : Option AnyView :=
  s.layers.findSome? (fun l => l.find sel)

/-- The controller state, from `struct Cursive` in src/src/lib.rs.  The
`HashMap<i32, Rc<Callback>>` is an association list of callback codes; the
ncurses handle is external state and does not appear. -/
structure Cursive (C : Type) where
  screens : List (StackView C)
  active_screen : Nat
  running : Bool
  global_callbacks : List (Int × C)

/-- `Cursive::new`: one screen pushed at construction, screen 0 active,
running, no global callbacks (the ncurses initialisation is external). -/
def Cursive.new {C : Type} : Cursive C :=
  { screens := [StackView.new], active_screen := 0, running := true,
    global_callbacks := [] }

/-- The i32 value obtained by the Rust cast `x as i32` of a u32 `x`
(two's-complement wrap). -/
def u32_to_i32 (x : Nat) : Int :=
  let r : Nat := x % 2 ^ 32
  if r < 2 ^ 31 then (r : Int) else (r : Int) - 2 ^ 32

/-- `Cursive::set_fps`: returns the timeout value handed to the terminal
driver.  `fps = 0` gives the blocking timeout `-1`; otherwise the code computes
`1000 / fps as i32` in i32 arithmetic (Rust `/` on i32 truncates toward zero,
which is `Int.tdiv`). -/
def Cursive.set_fps (fps : Nat) : Int :=
  if fps = 0 then -1 else Int.tdiv 1000 (u32_to_i32 fps)

/-- `Cursive::screen_mut`: the screen at index `active_screen`; the `unwrap`
panic is `none`. -/
def Cursive.screen_mut {C : Type} (c : Cursive C) : Option (StackView C) :=
  c.screens[c.active_screen]?

/-- `Cursive::add_screen`: records the current length, pushes a fresh
StackView, and returns the recorded length as the new screen's id. -/
def Cursive.add_screen {C : Type} (c : Cursive C) : Cursive C × Nat :=
  ({ c with screens := c.screens ++ [StackView.new] }, c.screens.length)

/-- `Cursive::set_screen`: out-of-range ids panic (`none`); otherwise the
active screen becomes `screen_id`. -/
def Cursive.set_screen {C : Type} (c : Cursive C) (screen_id : Nat) : Option (Cursive C) :=
  if screen_id ≥ c.screens.length then none
  else some { c with active_screen := screen_id }

/-- `Cursive::add_active_screen`: `add_screen` followed by `set_screen` on the
returned id. -/
def Cursive.add_active_screen {C : Type} (c : Cursive C) : Option (Cursive C × Nat) :=
  match (c.add_screen).1.set_screen (c.add_screen).2 with
  | none => none
  | some c2 => some (c2, (c.add_screen).2)

/-- `Cursive::find_any`: `screen_mut` (whose unwrap panic is the outer `none`)
then the active screen's structural `find`. -/
def Cursive.find_any {C : Type} (c : Cursive C) (sel : Selector) : Option (Option AnyView) :=
  match c.screen_mut with
  | none => none
  | some scr => some (scr.find sel)

/-- The `downcast_mut::<V>` step of `Cursive::find`: succeeds exactly when the
located view's runtime type matches the requested one. -/
def downcast_mut (t : Nat) (a : AnyView) : Option AnyView :=
  if a.tag = t then some a else none

/-- `Cursive::find`: the structural lookup followed by the typed narrowing;
the inner `Option` is the value the caller sees, the outer one the panic of
`screen_mut`. -/
def Cursive.find {C : Type} (c : Cursive C) (t : Nat) (sel : Selector) :
    Option (Option AnyView) :=
  match c.find_any sel with
  | none => none
  | some none => some none
  | some (some b) => some (downcast_mut t b)

/-- `Cursive::add_global_callback`: HashMap insert, i.e. any previous binding
of `key` is overwritten. -/
def Cursive.add_global_callback {C : Type} (c : Cursive C) (key : Int) (cb : C) :
    Cursive C :=
  { c with global_callbacks :=
      (key, cb) :: c.global_callbacks.filter (fun p => p.1 != key) }

/-- `Cursive::add_layer`: delegates to `screen_mut().add_layer(view)`; the
unwrap panic is `none`. -/
def Cursive.add_layer {C : Type} (c : Cursive C) (v : View C) : Option (Cursive C) :=
  match c.screen_mut with
  | none => none
  | some scr =>
      some { c with screens := c.screens.set c.active_screen (scr.add_layer v) }

/-- The private `Cursive::on_key_event`: look the key up in
`global_callbacks`; absent means return unchanged, present means invoke the
callback on the controller. -/
def Cursive.on_key_event {C : Type} (ap : C → Cursive C → Cursive C)
    (c : Cursive C) (ch : Int) : Cursive C :=
  match c.global_callbacks.lookup ch with
  | none => c
  | some cb => ap cb c

/-- One event-dispatch step of `Cursive::run`'s loop body: the match on
`self.screen_mut().on_key_event(ch)` (lines 217-221 of src/src/lib.rs); the
clear/layout/draw calls touch only external terminal state.  `none` is the
panic of `screen_mut`. -/
def Cursive.dispatch {C : Type} (ap : C → Cursive C → Cursive C)
    (c : Cursive C) (ch : Int) : Option (Cursive C) :=
  match c.screen_mut with
  | none => none
  | some scr =>
      match scr.on_key_event ch with
      | EventResult.Ignored => some (c.on_key_event ap ch)
      | EventResult.Consumed none => some c
      | EventResult.Consumed (some cb) => some (ap cb c)

/-- `Cursive::run` over a finite stream of keys: while `running` (checked at
the top of each iteration), take the next key and dispatch it.  Returns the
final state together with the keys never read; exhausting the stream while
still running models the loop blocked in `getch`. -/
def Cursive.run {C : Type} (ap : C → Cursive C → Cursive C) :
    Cursive C → List Int → Option (Cursive C × List Int)
  | c, keys =>
    if c.running = false then some (c, keys)
    else
      match keys with
      | [] => some (c, [])
      | ch :: rest =>
          match c.dispatch ap ch with
          | none => none
          | some c2 => Cursive.run ap c2 rest

/-- `Cursive::quit`: clears the running flag. -/
def Cursive.quit {C : Type} (c : Cursive C) : Cursive C :=
  { c with running := false }

/-- The spec's controller invariant: `screens` is non-empty and
`active_screen` is a valid index into it. -/
abbrev CursiveInv {C : Type} (c : Cursive C) : Prop :=
  0 < c.screens.length ∧ c.active_screen < c.screens.length

/-- One public state-changing operation of the controller, as listed in claim
C2 (ops that can panic step only when they return `some`). -/
inductive Step {C : Type} : Cursive C → Cursive C → Prop where
  | add_screen (c : Cursive C) : Step c (c.add_screen).1
  | add_active_screen {c c2 : Cursive C} {id : Nat} :
      c.add_active_screen = some (c2, id) → Step c c2
  | set_screen {c c2 : Cursive C} {id : Nat} :
      c.set_screen id = some c2 → Step c c2
  | add_global_callback (c : Cursive C) (k : Int) (cb : C) :
      Step c (c.add_global_callback k cb)
  | add_layer {c c2 : Cursive C} (v : View C) :
      c.add_layer v = some c2 → Step c c2
  | quit (c : Cursive C) : Step c c.quit

/-- Controller states reachable from construction by public operations. -/
def Reachable {C : Type} (c : Cursive C) : Prop :=
  Relation.ReflTransGen Step Cursive.new c

/-- `k` consecutive `add_screen` calls starting from a given state. -/
def addScreensIter {C : Type} (c : Cursive C) : Nat → Cursive C
  | 0 => c
  | n + 1 => ((addScreensIter c n).add_screen).1

/-! ## Helper lemmas -/

theorem set_screen_eq_some {C : Type} {c c2 : Cursive C} {id : Nat}
    (h : c.set_screen id = some c2) :
    id < c.screens.length ∧ c2 = { c with active_screen := id } := by
  unfold Cursive.set_screen at h
  by_cases hle : id ≥ c.screens.length
  · simp [hle] at h
  · simp [hle] at h
    exact ⟨Nat.lt_of_not_le hle, h.symm⟩

theorem set_screen_in_range {C : Type} (c : Cursive C) (id : Nat)
    (h : id < c.screens.length) :
    c.set_screen id = some { c with active_screen := id } := by
  unfold Cursive.set_screen
  simp [Nat.not_le_of_lt h]

theorem add_active_screen_eq {C : Type} (c : Cursive C) :
    c.add_active_screen =
      some ({ (c.add_screen).1 with active_screen := (c.add_screen).2 },
            (c.add_screen).2) := by
  unfold Cursive.add_active_screen
  rw [set_screen_in_range]
  simp [Cursive.add_screen]

theorem add_layer_eq_some {C : Type} {c c2 : Cursive C} {v : View C}
    (h : c.add_layer v = some c2) :
    ∃ scr, c.screen_mut = some scr
      ∧ c2 = { c with screens := c.screens.set c.active_screen (scr.add_layer v) } := by
  unfold Cursive.add_layer at h
  cases hms : c.screen_mut with
  | none => rw [hms] at h; exact absurd h (by simp)
  | some scr =>
      rw [hms] at h
      simp only [Option.some.injEq] at h
      exact ⟨scr, rfl, h.symm⟩

theorem step_preserves_inv {C : Type} {c c2 : Cursive C} (h : Step c c2)
    (hinv : CursiveInv c) : CursiveInv c2 := by
  obtain ⟨h1, h2⟩ := hinv
  cases h with
  | add_screen =>
      refine ⟨by simp [Cursive.add_screen], ?_⟩
      simp [Cursive.add_screen]
      omega
  | add_active_screen heq =>
      rw [add_active_screen_eq] at heq
      simp only [Option.some.injEq, Prod.mk.injEq] at heq
      rw [← heq.1]
      constructor <;> simp [Cursive.add_screen]
  | set_screen heq =>
      obtain ⟨hlt, rfl⟩ := set_screen_eq_some heq
      exact ⟨h1, hlt⟩
  | add_global_callback k cb =>
      exact ⟨h1, h2⟩
  | add_layer v heq =>
      obtain ⟨scr, _, rfl⟩ := add_layer_eq_some heq
      constructor <;> simp [List.length_set] <;> omega
  | quit =>
      exact ⟨h1, h2⟩

theorem step_length_mono {C : Type} {c c2 : Cursive C} (h : Step c c2) :
    c.screens.length ≤ c2.screens.length := by
  cases h with
  | add_screen => simp [Cursive.add_screen]
  | add_active_screen heq =>
      rw [add_active_screen_eq] at heq
      simp only [Option.some.injEq, Prod.mk.injEq] at heq
      rw [← heq.1]
      simp [Cursive.add_screen]
  | set_screen heq =>
      obtain ⟨_, rfl⟩ := set_screen_eq_some heq
      simp
  | add_global_callback k cb => rfl
  | add_layer v heq =>
      obtain ⟨scr, _, rfl⟩ := add_layer_eq_some heq
      simp [List.length_set]
  | quit => rfl

theorem addScreensIter_length {C : Type} (c : Cursive C) (k : Nat) :
    (addScreensIter c k).screens.length = c.screens.length + k := by
  induction k with
  | zero => rfl
  | succ n ih =>
      simp only [addScreensIter, Cursive.add_screen, List.length_append, ih,
        List.length_singleton]
      omega

/-! ## Claim theorems -/

/-- Claim C2: every controller reachable from construction by the public
operations (new, add_screen, add_active_screen, set_screen,
add_global_callback, add_layer, quit) has a non-empty screen list and an
active-screen index that is in range; every operation preserves this
invariant. -/
theorem claim_C2 {C : Type} (c : Cursive C) (h : Reachable c) : CursiveInv c := by
  unfold Reachable at h
  induction h with
  | refl => constructor <;> simp [Cursive.new]
  | tail _ hstep ih => exact step_preserves_inv hstep ih

/-- Witness for C2: the freshly constructed controller is reachable and
satisfies the invariant. -/
theorem claim_C2_witness :
    Reachable (Cursive.new : Cursive Unit) ∧ CursiveInv (Cursive.new : Cursive Unit) :=
  ⟨Relation.ReflTransGen.refl,
   claim_C2 (Cursive.new : Cursive Unit) Relation.ReflTransGen.refl⟩

/-- Claim C3: `set_screen id` panics (returns `none`) exactly when `id` is out
of range; an in-range `id` succeeds and makes `id` active; the id returned by
`add_screen` is in range in the resulting state; and no public operation ever
shrinks the screen list, so an id returned by `add_screen` stays valid (the
code has no screen-removal operation). -/
theorem claim_C3 {C : Type} (c : Cursive C) (id : Nat) :
    (c.set_screen id = none ↔ c.screens.length ≤ id)
  ∧ (id < c.screens.length → c.set_screen id = some { c with active_screen := id })
  ∧ ((c.add_screen).2 < (c.add_screen).1.screens.length)
  ∧ ((c.add_screen).1.set_screen (c.add_screen).2
        = some { (c.add_screen).1 with active_screen := (c.add_screen).2 })
  ∧ (∀ d d2 : Cursive C, Step d d2 → d.screens.length ≤ d2.screens.length) := by
  refine ⟨?_, ?_, ?_, ?_, ?_⟩
  · unfold Cursive.set_screen
    by_cases hle : id ≥ c.screens.length <;> simp [hle]
  · exact set_screen_in_range c id
  · simp [Cursive.add_screen]
  · exact set_screen_in_range _ _ (by simp [Cursive.add_screen])
  · exact fun d d2 h => step_length_mono h

/-- Witness for C3: on a fresh controller (one screen), screen 5 is rejected,
screen 0 is accepted and made active, and an `add_screen` step does not shrink
the screen list. -/
theorem claim_C3_witness :
    ((Cursive.new : Cursive Unit).set_screen 5 = none)
  ∧ ((Cursive.new : Cursive Unit).set_screen 0
        = some { (Cursive.new : Cursive Unit) with active_screen := 0 })
  ∧ ((Cursive.new : Cursive Unit).screens.length
        ≤ ((Cursive.new : Cursive Unit).add_screen).1.screens.length) :=
  ⟨(claim_C3 (Cursive.new : Cursive Unit) 5).1.mpr (by decide),
   (claim_C3 (Cursive.new : Cursive Unit) 0).2.1 (by decide),
   (claim_C3 (Cursive.new : Cursive Unit) 0).2.2.2.2 _ _ (Step.add_screen _)⟩

/-- Claim C4: `add_screen` returns the screen count from before the call, so
starting from a fresh controller (whose only screen has id 0) the k-th
subsequent call returns id k+1, i.e. the ids 1, 2, 3, ... in order;
`add_active_screen` returns exactly the id `add_screen` returns and
additionally makes that id the active screen. -/
theorem claim_C4 {C : Type} (c : Cursive C) (k : Nat) :
    ((c.add_screen).2 = c.screens.length)
  ∧ (((addScreensIter (Cursive.new : Cursive C) k).add_screen).2 = k + 1)
  ∧ (c.add_active_screen
        = some ({ (c.add_screen).1 with active_screen := (c.add_screen).2 },
                (c.add_screen).2))
  ∧ (∀ (c2 : Cursive C) (id : Nat), c.add_active_screen = some (c2, id) →
        id = (c.add_screen).2 ∧ c2.active_screen = id) := by
  refine ⟨rfl, ?_, add_active_screen_eq c, ?_⟩
  · show (addScreensIter (Cursive.new : Cursive C) k).screens.length = k + 1
    rw [addScreensIter_length]
    simp [Cursive.new]
    omega
  · intro c2 id heq
    rw [add_active_screen_eq] at heq
    simp only [Option.some.injEq, Prod.mk.injEq] at heq
    obtain ⟨hc2, hid⟩ := heq
    subst hid
    subst hc2
    exact ⟨rfl, rfl⟩

/-- Witness for C4: from a fresh controller, the first `add_screen` returns 1,
the fourth returns 4, and `add_active_screen` returns id 1 and makes screen 1
active. -/
theorem claim_C4_witness :
    (((Cursive.new : Cursive Unit).add_screen).2 = 1)
  ∧ (((addScreensIter (Cursive.new : Cursive Unit) 3).add_screen).2 = 4)
  ∧ (∃ c2 : Cursive Unit, (Cursive.new : Cursive Unit).add_active_screen = some (c2, 1)
        ∧ c2.active_screen = 1) := by
  have h := claim_C4 (Cursive.new : Cursive Unit) 3
  refine ⟨h.1, h.2.1, ⟨_, h.2.2.1, (h.2.2.2 _ _ h.2.2.1).2⟩⟩

/-- Claim C9: whenever the controller invariant holds, `screen_mut` does not
panic: its unwrap succeeds and yields the screen stored at index
`active_screen`. -/
theorem claim_C9 {C : Type} (c : Cursive C) (h : CursiveInv c) :
    c.screen_mut = some (c.screens.get ⟨c.active_screen, h.2⟩) := by
  simp [Cursive.screen_mut, List.getElem?_eq_getElem h.2, List.get_eq_getElem]

/-- Witness for C9: the fresh controller satisfies the invariant and its
`screen_mut` returns the construction-time screen. -/
theorem claim_C9_witness :
    CursiveInv (Cursive.new : Cursive Unit)
  ∧ (Cursive.new : Cursive Unit).screen_mut = some StackView.new :=
  ⟨by decide, claim_C9 (Cursive.new : Cursive Unit) (by decide)⟩

/-- Claim C10: `add_screen` appends exactly one fresh empty StackView and
changes nothing else: the previously existing screens, the active-screen
index, the running flag and the global callback table are all unchanged (so
the new screen does not become active); `add_global_callback`, `add_layer`
and `quit` also leave `active_screen` unchanged. -/
theorem claim_C10 {C : Type} (c c2 : Cursive C) (k : Int) (cb : C) (v : View C) :
    ((c.add_screen).1.screens = c.screens ++ [StackView.new])
  ∧ ((c.add_screen).1.screens.take c.screens.length = c.screens)
  ∧ ((c.add_screen).1.active_screen = c.active_screen)
  ∧ ((c.add_screen).1.running = c.running)
  ∧ ((c.add_screen).1.global_callbacks = c.global_callbacks)
  ∧ ((c.add_global_callback k cb).active_screen = c.active_screen)
  ∧ (c.add_layer v = some c2 → c2.active_screen = c.active_screen)
  ∧ ((c.quit).active_screen = c.active_screen) := by
  refine ⟨rfl, ?_, rfl, rfl, rfl, rfl, ?_, rfl⟩
  · simp [Cursive.add_screen]
  · intro h
    obtain ⟨scr, _, rfl⟩ := add_layer_eq_some h
    rfl

/-- Claim C1: for a key event handled by the run loop body (given that
`screen_mut` yields the active screen): `Consumed(None)` leaves the controller
unchanged with no callback invoked; `Consumed(Some cb)` applies exactly `cb`
once, immediately, to the controller; `Ignored` consults `global_callbacks` —
a hit applies exactly that callback once to the controller, a miss leaves the
controller unchanged. -/
theorem claim_C1 {C : Type} (ap : C → Cursive C → Cursive C) (c : Cursive C)
    (ch : Int) (scr : StackView C) (h : c.screen_mut = some scr) :
    (scr.on_key_event ch = EventResult.Consumed none → c.dispatch ap ch = some c)
  ∧ (∀ cb : C, scr.on_key_event ch = EventResult.Consumed (some cb) →
        c.dispatch ap ch = some (ap cb c))
  ∧ (scr.on_key_event ch = EventResult.Ignored →
        (∀ g : C, c.global_callbacks.lookup ch = some g →
            c.dispatch ap ch = some (ap g c))
      ∧ (c.global_callbacks.lookup ch = none → c.dispatch ap ch = some c)) := by
  refine ⟨?_, ?_, ?_⟩
  · intro he
    simp [Cursive.dispatch, h, he]
  · intro cb he
    simp [Cursive.dispatch, h, he]
  · intro he
    constructor
    · intro g hg
      simp [Cursive.dispatch, Cursive.on_key_event, h, he, hg]
    · intro hg
      simp [Cursive.dispatch, Cursive.on_key_event, h, he, hg]

/-- A concrete top-layer view for the C1 witness: key 1 is consumed silently,
key 2 is consumed with follow-up callback 7, everything else is ignored. -/
def vC1 : View Nat :=
  { on_key_event := fun ch =>
      if ch = 1 then EventResult.Consumed none
      else if ch = 2 then EventResult.Consumed (some 7)
      else EventResult.Ignored,
    find := fun _ => none }

/-- Concrete controller for the C1 witness: one screen holding `vC1` and a
global callback 5 registered for key 3. -/
def cC1 : Cursive Nat :=
  { screens := [{ layers := [vC1] }], active_screen := 0, running := true,
    global_callbacks := [(3, 5)] }

/-- Callback interpretation for the witnesses: every callback code just calls
`quit` on the controller. -/
def apQuit {C : Type} : C → Cursive C → Cursive C := fun _ c => c.quit

/-- Witness for C1: on `cC1`, key 1 (consumed, no callback) leaves the state,
key 2 runs follow-up 7, key 3 (ignored, registered) runs global callback 5,
and key 4 (ignored, unregistered) is dropped. -/
theorem claim_C1_witness :
    (cC1.dispatch apQuit 1 = some cC1)
  ∧ (cC1.dispatch apQuit 2 = some (apQuit 7 cC1))
  ∧ (cC1.dispatch apQuit 3 = some (apQuit 5 cC1))
  ∧ (cC1.dispatch apQuit 4 = some cC1) :=
  ⟨(claim_C1 apQuit cC1 1 { layers := [vC1] } rfl).1 rfl,
   (claim_C1 apQuit cC1 2 { layers := [vC1] } rfl).2.1 7 rfl,
   ((claim_C1 apQuit cC1 3 { layers := [vC1] } rfl).2.2 rfl).1 5 rfl,
   ((claim_C1 apQuit cC1 4 { layers := [vC1] } rfl).2.2 rfl).2 rfl⟩

/-- Claim C5: `quit` clears the running flag; the loop checks `running` only
at the top of an iteration, so a controller that is not running performs no
iteration and reads no key; and if the dispatch of the current iteration
leaves the controller stopped (e.g. a callback called `quit`), the loop
performs no further iteration and reads none of the remaining keys. -/
theorem claim_C5 {C : Type} (ap : C → Cursive C → Cursive C) (c c2 : Cursive C)
    (ch : Int) (keys rest : List Int) :
    ((c.quit).running = false)
  ∧ (c.running = false → Cursive.run ap c keys = some (c, keys))
  ∧ (c.running = true → c.dispatch ap ch = some c2 → c2.running = false →
        Cursive.run ap c (ch :: rest) = some (c2, rest)) := by
  refine ⟨rfl, ?_, ?_⟩
  · intro hr
    rw [Cursive.run.eq_def]
    simp [hr]
  · intro hr hd hr2
    rw [Cursive.run.eq_def]
    simp [hr, hd]
    rw [Cursive.run.eq_def]
    simp [hr2]

/-- Concrete controller for the C5 witness: empty screen (every key is
ignored) and a global callback for key 9; under `apQuit` that callback stops
the loop. -/
def cC5 : Cursive Unit :=
  { screens := [StackView.new], active_screen := 0, running := true,
    global_callbacks := [(9, ())] }

/-- Witness for C5: `quit` stops `cC5`; a stopped controller consumes no keys;
and pressing 9 (whose callback quits) ends the loop with keys 10, 11 unread. -/
theorem claim_C5_witness :
    ((cC5.quit).running = false)
  ∧ (Cursive.run apQuit (cC5.quit) [7, 8] = some (cC5.quit, [7, 8]))
  ∧ (Cursive.run apQuit cC5 [9, 10, 11] = some (cC5.quit, [10, 11])) :=
  ⟨(claim_C5 apQuit cC5 cC5 9 [7, 8] [10, 11]).1,
   (claim_C5 apQuit (cC5.quit) (cC5.quit) 9 [7, 8] [10, 11]).2.1 rfl,
   (claim_C5 apQuit cC5 (cC5.quit) 9 [7, 8] [10, 11]).2.2 rfl rfl rfl⟩

/-- Claim C6: a StackView with layers [A (bottom), B (top)] delivers a key
event only to B: the result is exactly B's result, it does not depend on the
bottom layer at all (so a key B consumes never reaches A), and when B ignores
the key the StackView reports `Ignored` even if A would have consumed it. -/
theorem claim_C6 {C : Type} (A B A2 : View C) (ch : Int) :
    ((StackView.mk [A, B]).on_key_event ch = B.on_key_event ch)
  ∧ ((StackView.mk [A, B]).on_key_event ch = (StackView.mk [A2, B]).on_key_event ch)
  ∧ (B.on_key_event ch = EventResult.Ignored →
        ∀ cb : Option C, A.on_key_event ch = EventResult.Consumed cb →
          (StackView.mk [A, B]).on_key_event ch = EventResult.Ignored) := by
  refine ⟨?_, ?_, ?_⟩
  · simp [StackView.on_key_event]
  · simp [StackView.on_key_event]
  · intro hB _ _
    simp [StackView.on_key_event, hB]

/-- Bottom layer for the C6 witness: consumes every key. -/
def vBot : View Unit :=
  { on_key_event := fun _ => EventResult.Consumed none, find := fun _ => none }

/-- Top layer for the C6 witness: ignores every key. -/
def vTop : View Unit :=
  { on_key_event := fun _ => EventResult.Ignored, find := fun _ => none }

/-- Witness for C6: with consuming bottom layer `vBot` under ignoring top
layer `vTop`, the stack reports `Ignored`. -/
theorem claim_C6_witness :
    (StackView.mk [vBot, vTop]).on_key_event 0 = EventResult.Ignored :=
  (claim_C6 vBot vTop vBot 0).2.2 rfl none rfl

/-- Claim C7: given the active screen, the controller's `find` returns "not
found" (`some none`, no panic) both when the structural lookup misses and when
it hits a view of the wrong runtime type — the two cases produce the identical
result; a hit of the right type is returned. -/
theorem claim_C7 {C : Type} (c : Cursive C) (scr : StackView C) (t : Nat)
    (sel : Selector) (h : c.screen_mut = some scr) :
    (scr.find sel = none → c.find t sel = some none)
  ∧ (∀ b : AnyView, scr.find sel = some b → b.tag ≠ t → c.find t sel = some none)
  ∧ (∀ b : AnyView, scr.find sel = some b → b.tag = t → c.find t sel = some (some b)) := by
  refine ⟨?_, ?_, ?_⟩
  · intro he
    simp [Cursive.find, Cursive.find_any, h, he]
  · intro b he hne
    simp [Cursive.find, Cursive.find_any, downcast_mut, h, he, hne]
  · intro b he heq
    simp [Cursive.find, Cursive.find_any, downcast_mut, h, he, heq]

/-- View for the C7 witness: a view of runtime type tag 3 that matches only
the structural-position-0 selector. -/
def vC7 : View Unit :=
  { on_key_event := fun _ => EventResult.Ignored,
    find := fun sel =>
      match sel with
      | Selector.byPosition 0 => some { tag := 3, data := 0 }
      | _ => none }

/-- Controller for the C7 witness: one screen holding `vC7`. -/
def cC7 : Cursive Unit :=
  { screens := [{ layers := [vC7] }], active_screen := 0, running := true,
    global_callbacks := [] }

/-- Witness for C7: a selector that matches nothing and a matching view of the
wrong type both yield the identical "not found"; the right type is found. -/
theorem claim_C7_witness :
    (cC7.find 4 (Selector.byName "x") = some none)
  ∧ (cC7.find 4 (Selector.byPosition 0) = some none)
  ∧ (cC7.find 3 (Selector.byPosition 0) = some (some { tag := 3, data := 0 })) :=
  ⟨(claim_C7 cC7 { layers := [vC7] } 4 (Selector.byName "x") rfl).1 rfl,
   (claim_C7 cC7 { layers := [vC7] } 4 (Selector.byPosition 0) rfl).2.1
      { tag := 3, data := 0 } rfl (by decide),
   (claim_C7 cC7 { layers := [vC7] } 3 (Selector.byPosition 0) rfl).2.2
      { tag := 3, data := 0 } rfl rfl⟩

/-- Counterexample for C8 as stated: at fps = 4294967295 (a valid u32), the
code computes `1000 / (fps as i32) = 1000 / (-1) = -1000`, not the integer
division 1000 / fps = 0 that the claim asserts for every non-zero fps. -/
theorem claim_C8_counterexample :
    Cursive.set_fps 4294967295 = -1000
  ∧ ((1000 : Nat) / 4294967295 = 0)
  ∧ Cursive.set_fps 4294967295 ≠ Int.ofNat ((1000 : Nat) / 4294967295) := by
  decide

/-- Claim C8 (amended): `set_fps 0` configures the blocking timeout `-1` and
the division is never performed with fps = 0; for non-zero fps below 2^31 the
timeout is exactly 1000 / fps (integer division); for fps ≥ 2^31 the
`as i32` cast wraps and the timeout is the truncated quotient
1000 / (fps - 2^32). -/
theorem claim_C8_amended (fps : Nat) :
    Cursive.set_fps 0 = -1
  ∧ (0 < fps → fps < 2 ^ 31 → Cursive.set_fps fps = Int.ofNat (1000 / fps))
  ∧ (2 ^ 31 ≤ fps → fps < 2 ^ 32 →
        Cursive.set_fps fps = Int.tdiv 1000 ((fps : Int) - 2 ^ 32)) := by
  refine ⟨rfl, ?_, ?_⟩
  · intro h0 h31
    have hne : ¬ fps = 0 := by omega
    have hmod : fps % 2 ^ 32 = fps := Nat.mod_eq_of_lt (by omega)
    unfold Cursive.set_fps u32_to_i32
    simp only [hne, if_false, hmod, h31, if_true]
    rfl
  · intro h31 h32
    have hne : ¬ fps = 0 := by
      have : (0 : Nat) < 2 ^ 31 := by norm_num
      omega
    have hmod : fps % 2 ^ 32 = fps := Nat.mod_eq_of_lt h32
    have hnlt : ¬ fps < 2 ^ 31 := by omega
    unfold Cursive.set_fps u32_to_i32
    simp only [hne, if_false, hmod, hnlt]

/-- Witness for the amended C8: fps = 60 is in the non-wrapping range and
gives 1000 / 60; fps = 4294967295 is in the wrapping range. -/
theorem claim_C8_witness :
    Cursive.set_fps 60 = Int.ofNat (1000 / 60)
  ∧ Cursive.set_fps 4294967295 = Int.tdiv 1000 (((4294967295 : Nat) : Int) - 2 ^ 32) :=
  ⟨(claim_C8_amended 60).2.1 (by decide) (by decide),
   (claim_C8_amended 4294967295).2.2 (by decide) (by decide)⟩

/-- Witness for C10: on a fresh controller, `add_screen` appends one empty
screen and keeps screen 0 active, and `add_layer` keeps screen 0 active. -/
theorem claim_C10_witness :
    (((Cursive.new : Cursive Unit).add_screen).1.screens
        = (Cursive.new : Cursive Unit).screens ++ [StackView.new])
  ∧ (((Cursive.new : Cursive Unit).add_screen).1.active_screen = 0)
  ∧ (∃ c2 : Cursive Unit, (Cursive.new : Cursive Unit).add_layer vTop = some c2
        ∧ c2.active_screen = 0) :=
  ⟨(claim_C10 (Cursive.new : Cursive Unit) (Cursive.new : Cursive Unit) 0 () vTop).1,
   (claim_C10 (Cursive.new : Cursive Unit) (Cursive.new : Cursive Unit) 0 () vTop).2.2.1,
   ⟨_, rfl, (claim_C10 (Cursive.new : Cursive Unit) _ 0 () vTop).2.2.2.2.2.2.1 rfl⟩⟩
